import Mathlib

/-!
Verification of the membership-application workflow engine of the
Nexus-Dev backend: the finite-state machine (`src/backend/src/applications/fsm.ts`),
the transition helper and the five transition route handlers
(`src/backend/src/applications/routes.ts`), and the role gate
(`requireRole` in `src/backend/src/common/middleware/auth.ts`).

The embedding is shallow: each route handler becomes a pure function from an
authenticated actor, a store snapshot and the request data to the new store
snapshot and an HTTP-level result.  The Prisma `$transaction` blocks are
modelled with explicit rollback: a fault model says which of the two writes
inside the transaction fails, and on any failure the original store is
returned unchanged.  Timestamps are abstract clock values (`Nat`).
-/

namespace NexusDev

/-- `AppState` enum from `prisma/migrations/..._init/migration.sql`. -/
inductive AppState
  | DRAFT
  | SUBMITTED
  | REGION_REVIEW
  | REQUESTED_CHANGES
  | NATIONAL_REVIEW
  | APPROVED
  | REJECTED
deriving DecidableEq, Repr

/-- `Role` enum from the Prisma schema. -/
inductive Role
  | ADMIN
  | NATIONAL_SECRETARIAT
  | REGIONAL_SECRETARIAT
  | COMPANY_REP
  | MEMBER
deriving DecidableEq, Repr

/-- The `Transition` union type of `fsm.ts`. -/
inductive Transition
  | submit
  | request_info
  | region_approve
  | national_approve
  | reject
deriving DecidableEq, Repr

/-- The `allowed` record of `fsm.ts` (lines 10-18). -/
def allowed : AppState → List Transition
  | .DRAFT => [.submit]
  | .SUBMITTED => [.request_info, .region_approve, .reject]
  | .REGION_REVIEW => [.request_info, .region_approve, .reject]
  | .REQUESTED_CHANGES => [.submit]
  | .NATIONAL_REVIEW => [.national_approve, .reject]
  | .APPROVED => []
  | .REJECTED => []

/-- `can` of `fsm.ts` (lines 20-21): `allowed[state].includes(action)`. -/
def can (state : AppState) (action : Transition) : Bool :=
  (allowed state).contains action

/-- A row of the `Company` table; only the fields the workflow mentions. -/
structure Company where
  id : String
  ownerUserId : String
deriving DecidableEq, Repr

/-- A row of the `MembershipApplication` table; timestamps are clock values. -/
structure MembershipApplication where
  id : String
  companyId : String
  submittedById : String
  regionId : String
  form : String
  state : AppState
  reasonRejected : Option String
  submittedAt : Option Nat
  decidedAt : Option Nat
deriving DecidableEq, Repr

/-- The `data` payload passed to the transition helper (`reasonRejected`
for reject, `note` for request-info); `none` models an absent / null field. -/
structure Payload where
  reasonRejected : Option String
  note : Option String
deriving DecidableEq, Repr

/-- A row of the `ApplicationEvent` table. -/
structure ApplicationEvent where
  applicationId : String
  action : Transition
  actorId : String
  meta : Payload
deriving DecidableEq, Repr

/-- `req.user` as set by the auth middleware: `{ id, role, regionId }`. -/
structure AuthenticatedUser where
  id : String
  role : Role
  regionId : Option String
deriving DecidableEq, Repr

/-- A snapshot of the relational store. -/
structure Store where
  apps : List MembershipApplication
  events : List ApplicationEvent
  companies : List Company
deriving DecidableEq, Repr

/-- `prisma.membershipApplication.findUnique({ where: { id } })`. -/
def findUnique (store : Store) (appId : String) : Option MembershipApplication :=
  store.apps.find? (fun a => a.id == appId)

/-- `tx.membershipApplication.update`: replace the row with matching id. -/
def updateApp (store : Store) (ua : MembershipApplication) : Store :=
  { store with apps := store.apps.map (fun a => if a.id == ua.id then ua else a) }

/-- `tx.applicationEvent.create`: append one event row. -/
def appendEvent (store : Store) (ev : ApplicationEvent) : Store :=
  { store with events := store.events ++ [ev] }

/-- The `nextState` record inside the transition helper (routes.ts 144-150). -/
def nextState : Transition → AppState
  | .submit => .SUBMITTED
  | .request_info => .REQUESTED_CHANGES
  | .region_approve => .NATIONAL_REVIEW
  | .national_approve => .APPROVED
  | .reject => .REJECTED

/-- The `update` data of the transition helper (routes.ts 153-165):
new state from `nextState`; `decidedAt` stamped when the action is
`national_approve` or `reject`, else kept; `reasonRejected` set from the
payload (defaulting to "Not specified" when absent) on `reject`, else kept. -/
def transitionUpdate (app : MembershipApplication) (action : Transition)
    (data : Payload) (now : Nat) : MembershipApplication :=
  { app with
    state := nextState action
    decidedAt :=
      if ([Transition.national_approve, Transition.reject]).contains action
      then some now else app.decidedAt
    reasonRejected :=
      if action = Transition.reject
      then some (data.reasonRejected.getD "Not specified")
      else app.reasonRejected }

/-- The `update` data of the submit route handler (routes.ts 57-60):
state becomes SUBMITTED and `submittedAt` is stamped unconditionally. -/
def submitUpdate (app : MembershipApplication) (now : Nat) : MembershipApplication :=
  { app with state := AppState.SUBMITTED, submittedAt := some now }

/-- The errors thrown inside the transition helper, plus an infrastructure
failure of a write inside the transaction. -/
inductive TxError
  | notFound
  | invalidTransition
  | storeFailure
deriving DecidableEq, Repr

/-- Fault injection for the two writes inside a `$transaction` block. -/
structure FaultModel where
  updateFails : Bool
  createFails : Bool
deriving DecidableEq, Repr

/-- The fault-free store. -/
def noFault : FaultModel := ⟨false, false⟩

/-- The `transition` helper (routes.ts 131-171).  The whole body runs in
`prisma.$transaction`, so any failure rolls the store back: the function
returns the original store together with the error. -/
def transition (fm : FaultModel) (store : Store) (appId : String)
    (actorId : String) (action : Transition) (data : Payload) (now : Nat) :
    Store × Except TxError MembershipApplication :=
  match findUnique store appId with
  | none => (store, .error .notFound)
  | some app =>
    if can app.state action then
      if fm.updateFails then (store, .error .storeFailure)
      else
        let ua := transitionUpdate app action data now
        if fm.createFails then (store, .error .storeFailure)
        else (appendEvent (updateApp store ua) ⟨appId, action, actorId, data⟩, .ok ua)
    else (store, .error .invalidTransition)

/-- HTTP-level outcome of a route handler. -/
structure HttpResult where
  status : Nat
  app : Option MembershipApplication
deriving DecidableEq, Repr

/-- `requireRole(...roles)` from the auth middleware with an authenticated
user present: pass iff the user's role is in the list. -/
def requireRole (roles : List Role) (user : AuthenticatedUser) : Bool :=
  roles.contains user.role

/-- The create route handler (routes.ts 23-31): a fresh DRAFT row. -/
def createApp (appId companyId userId regionId form : String) :
    MembershipApplication :=
  ⟨appId, companyId, userId, regionId, form, .DRAFT, none, none, none⟩

/-- `POST /` (routes.ts 15-42): role gate, then insert a DRAFT application. -/
def createRoute (user : AuthenticatedUser) (store : Store)
    (appId companyId regionId form : String) : Store × HttpResult :=
  if requireRole [.COMPANY_REP, .ADMIN] user then
    let app := createApp appId companyId user.id regionId form
    ({ store with apps := store.apps ++ [app] }, ⟨201, some app⟩)
  else (store, ⟨403, none⟩)

/-- `POST /:id/submit` (routes.ts 45-72): role gate, 404 when absent,
409 when `can(state, "submit")` fails, else a transaction updating the
row (state SUBMITTED, `submittedAt` stamped) and appending one event. -/
def submitRoute (fm : FaultModel) (user : AuthenticatedUser) (store : Store)
    (appId : String) (now : Nat) : Store × HttpResult :=
  if requireRole [.COMPANY_REP, .ADMIN] user then
    match findUnique store appId with
    | none => (store, ⟨404, none⟩)
    | some app =>
      if can app.state .submit then
        if fm.updateFails || fm.createFails then (store, ⟨500, none⟩)
        else
          let ua := submitUpdate app now
          (appendEvent (updateApp store ua) ⟨appId, .submit, user.id, ⟨none, none⟩⟩,
            ⟨200, some ua⟩)
      else (store, ⟨409, none⟩)
  else (store, ⟨403, none⟩)

/-- Map the transition helper's outcome to the route response: 200 with the
updated row on success, otherwise 409 with the error message (the catch
block at each transition route maps every thrown error to status 409). -/
def routeOfTx (r : Store × Except TxError MembershipApplication) :
    Store × HttpResult :=
  match r with
  | (s, .ok ua) => (s, ⟨200, some ua⟩)
  | (s, .error _) => (s, ⟨409, none⟩)

/-- `POST /:id/request-info` (routes.ts 174-187). -/
def requestInfoRoute (fm : FaultModel) (user : AuthenticatedUser)
    (store : Store) (appId : String) (note : Option String) (now : Nat) :
    Store × HttpResult :=
  if requireRole [.REGIONAL_SECRETARIAT, .NATIONAL_SECRETARIAT, .ADMIN] user then
    routeOfTx (transition fm store appId user.id .request_info ⟨none, note⟩ now)
  else (store, ⟨403, none⟩)

/-- `POST /:id/region-approve` (routes.ts 190-202).  The source carries the
comment "Optional: verify req.user.regionId matches application.regionId";
no such check is performed. -/
def regionApproveRoute (fm : FaultModel) (user : AuthenticatedUser)
    (store : Store) (appId : String) (now : Nat) : Store × HttpResult :=
  if requireRole [.REGIONAL_SECRETARIAT, .ADMIN] user then
    routeOfTx (transition fm store appId user.id .region_approve ⟨none, none⟩ now)
  else (store, ⟨403, none⟩)

/-- `POST /:id/national-approve` (routes.ts 205-220). -/
def nationalApproveRoute (fm : FaultModel) (user : AuthenticatedUser)
    (store : Store) (appId : String) (now : Nat) : Store × HttpResult :=
  if requireRole [.NATIONAL_SECRETARIAT, .ADMIN] user then
    routeOfTx (transition fm store appId user.id .national_approve ⟨none, none⟩ now)
  else (store, ⟨403, none⟩)

/-- `POST /:id/reject` (routes.ts 223-236). -/
def rejectRoute (fm : FaultModel) (user : AuthenticatedUser) (store : Store)
    (appId : String) (reasonRejected : Option String) (now : Nat) :
    Store × HttpResult :=
  if requireRole [.REGIONAL_SECRETARIAT, .NATIONAL_SECRETARIAT, .ADMIN] user then
    routeOfTx (transition fm store appId user.id .reject ⟨reasonRejected, none⟩ now)
  else (store, ⟨403, none⟩)

/-- Application records producible by the engine: a freshly created DRAFT
row, or the image of a reachable row under the submit handler's update or
the transition helper's update, in each case guarded by the legality check
the corresponding handler performs (the helper is invoked by the four
non-submit routes only). -/
inductive Reachable : MembershipApplication → Prop
  | created (appId companyId userId regionId form : String) :
      Reachable (createApp appId companyId userId regionId form)
  | submitted (app : MembershipApplication) (now : Nat) :
      Reachable app → can app.state .submit = true →
      Reachable (submitUpdate app now)
  | stepped (app : MembershipApplication) (action : Transition)
      (data : Payload) (now : Nat) :
      Reachable app → action ≠ .submit → can app.state action = true →
      Reachable (transitionUpdate app action data now)

/-- Success test for the transition helper's outcome. -/
def isOk (r : Except TxError MembershipApplication) : Bool :=
  match r with
  | .ok _ => true
  | .error _ => false

/-- Transition-Table legality written from the spec's enumeration: DRAFT
allows only submit; SUBMITTED and REGION_REVIEW allow request_info,
region_approve, reject; REQUESTED_CHANGES allows only submit;
NATIONAL_REVIEW allows national_approve and reject; APPROVED and REJECTED
allow nothing. -/
def specLegal (s : AppState) (a : Transition) : Bool :=
  match s, a with
  | .DRAFT, .submit => true
  | .SUBMITTED, .request_info => true
  | .SUBMITTED, .region_approve => true
  | .SUBMITTED, .reject => true
  | .REGION_REVIEW, .request_info => true
  | .REGION_REVIEW, .region_approve => true
  | .REGION_REVIEW, .reject => true
  | .REQUESTED_CHANGES, .submit => true
  | .NATIONAL_REVIEW, .national_approve => true
  | .NATIONAL_REVIEW, .reject => true
  | _, _ => false

/-- Next-state mapping written from the spec's enumeration. -/
def specNext : Transition → AppState
  | .submit => .SUBMITTED
  | .request_info => .REQUESTED_CHANGES
  | .region_approve => .NATIONAL_REVIEW
  | .national_approve => .APPROVED
  | .reject => .REJECTED

theorem can_eq_specLegal : ∀ s a, can s a = specLegal s a := by
  intro s a
  cases s <;> cases a <;> rfl

theorem nextState_eq_specNext : ∀ a, nextState a = specNext a := by
  intro a
  cases a <;> rfl

theorem can_submit_cases :
    ∀ s, can s .submit = true →
      s = AppState.DRAFT ∨ s = AppState.REQUESTED_CHANGES := by
  intro s h
  cases s
  · exact Or.inl rfl
  · exact absurd h (by decide)
  · exact absurd h (by decide)
  · exact Or.inr rfl
  · exact absurd h (by decide)
  · exact absurd h (by decide)
  · exact absurd h (by decide)

theorem can_not_terminal :
    ∀ s a, can s a = true →
      ¬ (s = AppState.APPROVED ∨ s = AppState.REJECTED) := by
  intro s a h hterm
  rcases hterm with ht | ht <;> subst ht <;> cases a <;> exact absurd h (by decide)

theorem terminal_no_action :
    ∀ s a, (s = AppState.APPROVED ∨ s = AppState.REJECTED) →
      can s a = false := by
  intro s a h
  rcases h with h | h <;> subst h <;> cases a <;> rfl

/-- Fixture: a draft application for company c1, created by bob. -/
def draftApp : MembershipApplication := createApp "d1" "c1" "bob" "r1" "formdata"

/-- Fixture: one draft application; company c1 is owned by alice. -/
def store0 : Store := ⟨[draftApp], [], [⟨"c1", "alice"⟩]⟩

/-- Fixture: a company representative who does not own company c1. -/
def repUser : AuthenticatedUser := ⟨"bob", .COMPANY_REP, none⟩

/-- Fixture: a national secretariat member. -/
def natUser : AuthenticatedUser := ⟨"nat1", .NATIONAL_SECRETARIAT, none⟩

/-- Fixture: a regional secretariat member affiliated with region r2. -/
def regUserOther : AuthenticatedUser := ⟨"reg2", .REGIONAL_SECRETARIAT, some "r2"⟩

/-- Fixture: store0 after a successful submit at time 1. -/
def store1 : Store := (submitRoute noFault repUser store0 "d1" 1).1

/-- Fixture: store1 after a successful request-info at time 2. -/
def store2 : Store :=
  (requestInfoRoute noFault natUser store1 "d1" (some "more info") 2).1

/-- Fixture: store2 after a second successful submit at time 5. -/
def store3 : Store := (submitRoute noFault repUser store2 "d1" 5).1

/-- C1: for an application present in the store, the fault-free transition
helper succeeds iff the Transition Table (as enumerated in the claim) marks
(current state, action) legal — `can` agrees with that table on every pair —
and on success the returned application's state is the table's mapped next
state for the action. -/
theorem C1_transition_table (store : Store) (appId actorId : String)
    (action : Transition) (data : Payload) (now : Nat)
    (app : MembershipApplication) (h : findUnique store appId = some app) :
    (∀ s a, can s a = specLegal s a) ∧
    (isOk (transition noFault store appId actorId action data now).2 = true ↔
      specLegal app.state action = true) ∧
    (∀ s2 ua,
      transition noFault store appId actorId action data now = (s2, .ok ua) →
      ua.state = specNext action) := by
  have hred : transition noFault store appId actorId action data now =
      (if can app.state action then
        (appendEvent (updateApp store (transitionUpdate app action data now))
          ⟨appId, action, actorId, data⟩, .ok (transitionUpdate app action data now))
       else (store, .error .invalidTransition)) := by
    simp [transition, h, noFault]
  refine ⟨fun s a => can_eq_specLegal s a, ?_, ?_⟩
  · rw [hred, ← can_eq_specLegal]
    by_cases hc : can app.state action = true
    · simp [hc, isOk]
    · simp [Bool.not_eq_true] at hc
      simp [hc, isOk]
  · intro s2 ua heq
    rw [hred] at heq
    by_cases hc : can app.state action = true
    · simp [hc] at heq
      rw [← heq.2, transitionUpdate]
      exact nextState_eq_specNext action
    · simp [Bool.not_eq_true] at hc
      simp [hc] at heq

/-- Witness for C1 at a concrete store: the draft application is present,
and the equivalence holds for the reject action. -/
theorem C1_transition_table_witness :
    (isOk (transition noFault store0 "d1" "nat1" .reject ⟨some "bad", none⟩ 3).2 = true ↔
      specLegal draftApp.state Transition.reject = true) :=
  (C1_transition_table store0 "d1" "nat1" .reject ⟨some "bad", none⟩ 3 draftApp
    (by decide)).2.1

/-- Let-free unfolding of the transition helper, for case analysis. -/
theorem transition_eq (fm : FaultModel) (store : Store) (appId actorId : String)
    (action : Transition) (data : Payload) (now : Nat) :
    transition fm store appId actorId action data now =
      match findUnique store appId with
      | none => (store, .error .notFound)
      | some app =>
        if can app.state action then
          if fm.updateFails then (store, .error .storeFailure)
          else if fm.createFails then (store, .error .storeFailure)
          else (appendEvent (updateApp store (transitionUpdate app action data now))
                  ⟨appId, action, actorId, data⟩,
                .ok (transitionUpdate app action data now))
        else (store, .error .invalidTransition) := rfl

/-- C2: a transition call is atomic.  For the transition helper: on success
the new store is the old store with the one application row replaced and
exactly one new event (recording the action and the actor) appended; on any
failure — not found, illegal transition, or a failed write inside the
transaction — the store is unchanged.  For the submit route handler: on a
200 response the same holds with the submit event; on any non-200 response
the store is unchanged. -/
theorem C2_atomicity (fm : FaultModel) (store : Store)
    (appId actorId : String) (action : Transition) (data : Payload) (now : Nat) :
    (∀ s2 ua, transition fm store appId actorId action data now = (s2, .ok ua) →
      s2.events = store.events ++ [⟨appId, action, actorId, data⟩] ∧
      s2.apps = store.apps.map (fun a => if a.id == ua.id then ua else a) ∧
      s2.companies = store.companies) ∧
    (∀ s2 e, transition fm store appId actorId action data now = (s2, .error e) →
      s2 = store) ∧
    (∀ user s2 ua,
      submitRoute fm user store appId now = (s2, ⟨200, some ua⟩) →
      s2.events = store.events ++ [⟨appId, .submit, user.id, ⟨none, none⟩⟩] ∧
      s2.apps = store.apps.map (fun a => if a.id == ua.id then ua else a) ∧
      s2.companies = store.companies) ∧
    (∀ user s2 r, submitRoute fm user store appId now = (s2, r) →
      r.status ≠ 200 → s2 = store) := by
  refine ⟨?_, ?_, ?_, ?_⟩
  · intro s2 ua heq
    rw [transition_eq] at heq
    cases hfind : findUnique store appId with
    | none => rw [hfind] at heq; simp at heq
    | some app =>
      rw [hfind] at heq
      dsimp only at heq
      by_cases hc : can app.state action
      · rw [if_pos hc] at heq
        by_cases hu : fm.updateFails = true
        · rw [if_pos hu] at heq; simp at heq
        · rw [if_neg hu] at heq
          by_cases hcr : fm.createFails = true
          · rw [if_pos hcr] at heq; simp at heq
          · rw [if_neg hcr] at heq
            simp only [Prod.mk.injEq, Except.ok.injEq] at heq
            obtain ⟨h1, h2⟩ := heq
            subst h1
            subst h2
            exact ⟨rfl, rfl, rfl⟩
      · rw [if_neg hc] at heq; simp at heq
  · intro s2 e heq
    rw [transition_eq] at heq
    cases hfind : findUnique store appId with
    | none =>
      rw [hfind] at heq
      simp only [Prod.mk.injEq] at heq
      exact heq.1.symm
    | some app =>
      rw [hfind] at heq
      dsimp only at heq
      by_cases hc : can app.state action
      · rw [if_pos hc] at heq
        by_cases hu : fm.updateFails = true
        · rw [if_pos hu] at heq
          simp only [Prod.mk.injEq] at heq
          exact heq.1.symm
        · rw [if_neg hu] at heq
          by_cases hcr : fm.createFails = true
          · rw [if_pos hcr] at heq
            simp only [Prod.mk.injEq] at heq
            exact heq.1.symm
          · rw [if_neg hcr] at heq; simp at heq
      · rw [if_neg hc] at heq
        simp only [Prod.mk.injEq] at heq
        exact heq.1.symm
  · intro user s2 ua heq
    unfold submitRoute at heq
    by_cases hrole : requireRole [.COMPANY_REP, .ADMIN] user = true
    · rw [if_pos hrole] at heq
      cases hfind : findUnique store appId with
      | none => rw [hfind] at heq; simp at heq
      | some app =>
        rw [hfind] at heq
        dsimp only at heq
        by_cases hc : can app.state .submit
        · rw [if_pos hc] at heq
          by_cases hf : (fm.updateFails || fm.createFails) = true
          · rw [if_pos hf] at heq; simp at heq
          · rw [if_neg hf] at heq
            simp only [Prod.mk.injEq, HttpResult.mk.injEq, Option.some.injEq] at heq
            obtain ⟨h1, _, h2⟩ := heq
            subst h1
            subst h2
            exact ⟨rfl, rfl, rfl⟩
        · rw [if_neg hc] at heq; simp at heq
    · rw [if_neg hrole] at heq; simp at heq
  · intro user s2 r heq hne
    unfold submitRoute at heq
    by_cases hrole : requireRole [.COMPANY_REP, .ADMIN] user = true
    · rw [if_pos hrole] at heq
      cases hfind : findUnique store appId with
      | none =>
        rw [hfind] at heq
        simp only [Prod.mk.injEq] at heq
        exact heq.1.symm
      | some app =>
        rw [hfind] at heq
        dsimp only at heq
        by_cases hc : can app.state .submit
        · rw [if_pos hc] at heq
          by_cases hf : (fm.updateFails || fm.createFails) = true
          · rw [if_pos hf] at heq
            simp only [Prod.mk.injEq] at heq
            exact heq.1.symm
          · rw [if_neg hf] at heq
            simp only [Prod.mk.injEq] at heq
            exact absurd (heq.2 ▸ rfl) hne
        · rw [if_neg hc] at heq
          simp only [Prod.mk.injEq] at heq
          exact heq.1.symm
    · rw [if_neg hrole] at heq
      simp only [Prod.mk.injEq] at heq
      exact heq.1.symm

/-- Witness for C2 at a concrete call: the successful submit on the draft
store appends exactly the submit event and only rewrites the one row. -/
theorem C2_atomicity_witness :
    store1.events = store0.events ++ [⟨"d1", .submit, "bob", ⟨none, none⟩⟩] ∧
    store1.companies = store0.companies :=
  have h := (C2_atomicity noFault store0 "d1" "bob" .submit ⟨none, none⟩ 1).2.2.1
    repUser store1 (submitUpdate draftApp 1) (by rfl)
  ⟨h.1, h.2.2⟩

/-- The transition helper stamps `decidedAt` exactly for the two deciding
actions. -/
theorem transitionUpdate_decidedAt (app : MembershipApplication)
    (action : Transition) (data : Payload) (now : Nat) :
    (transitionUpdate app action data now).decidedAt =
      if action = .national_approve ∨ action = .reject then some now
      else app.decidedAt := by
  cases action <;> rfl

/-- The transition helper writes `reasonRejected` only on reject. -/
theorem transitionUpdate_reason (app : MembershipApplication)
    (action : Transition) (data : Payload) (now : Nat) :
    (transitionUpdate app action data now).reasonRejected =
      if action = .reject then some (data.reasonRejected.getD "Not specified")
      else app.reasonRejected := by
  cases action <;> rfl

theorem transitionUpdate_state (app : MembershipApplication)
    (action : Transition) (data : Payload) (now : Nat) :
    (transitionUpdate app action data now).state = nextState action := rfl

theorem transitionUpdate_submittedAt (app : MembershipApplication)
    (action : Transition) (data : Payload) (now : Nat) :
    (transitionUpdate app action data now).submittedAt = app.submittedAt := rfl

/-- A transition route response built from the helper is 200 or 409. -/
theorem routeOfTx_status (r : Store × Except TxError MembershipApplication) :
    (routeOfTx r).2.status = 200 ∨ (routeOfTx r).2.status = 409 := by
  rcases r with ⟨s, e⟩
  cases e
  · exact Or.inr rfl
  · exact Or.inl rfl

/-- C3 counterexample: a regional-secretariat actor affiliated with region
r2 performs region_approve on a submitted application of region r1 and the
call succeeds with 200 — it is not rejected with Forbidden (403). -/
theorem C3_counterexample :
    regUserOther.role = Role.REGIONAL_SECRETARIAT ∧
    regUserOther.regionId = some "r2" ∧
    (findUnique store1 "d1").map MembershipApplication.regionId = some "r1" ∧
    (findUnique store1 "d1").map MembershipApplication.state =
      some AppState.SUBMITTED ∧
    (regionApproveRoute noFault regUserOther store1 "d1" 9).2.status = 200 :=
  ⟨rfl, rfl, rfl, rfl, rfl⟩

/-- C3 amended: the request-info, region-approve and reject endpoints gate
on the actor's role only; the actor's region affiliation is never read, so
the outcome is invariant under changing it, and 403 arises exactly when the
role check fails. -/
theorem C3_region_scope_not_enforced (fm : FaultModel)
    (user : AuthenticatedUser) (store : Store) (appId : String)
    (note reason : Option String) (now : Nat) (rid : Option String) :
    (regionApproveRoute fm { user with regionId := rid } store appId now =
      regionApproveRoute fm user store appId now) ∧
    (requestInfoRoute fm { user with regionId := rid } store appId note now =
      requestInfoRoute fm user store appId note now) ∧
    (rejectRoute fm { user with regionId := rid } store appId reason now =
      rejectRoute fm user store appId reason now) ∧
    ((regionApproveRoute fm user store appId now).2.status = 403 ↔
      requireRole [.REGIONAL_SECRETARIAT, .ADMIN] user = false) := by
  refine ⟨rfl, rfl, rfl, ?_⟩
  unfold regionApproveRoute
  by_cases hrole : requireRole [.REGIONAL_SECRETARIAT, .ADMIN] user = true
  · rw [if_pos hrole, hrole]
    simp only [Bool.true_eq_false, iff_false]
    rcases routeOfTx_status
        (transition fm store appId user.id .region_approve ⟨none, none⟩ now) with
      h200 | h409
    · rw [h200]; decide
    · rw [h409]; decide
  · rw [if_neg hrole]
    simp only [Bool.not_eq_true] at hrole
    rw [hrole]
    simp

/-- C4 counterexample: submittedAt is 1 after the first submit, and after
request_info a second successful submit at time 5 overwrites it to 5 — it
is not written at most once. -/
theorem C4_counterexample :
    (findUnique store1 "d1").map MembershipApplication.submittedAt =
      some (some 1) ∧
    (submitRoute noFault repUser store2 "d1" 5).2.status = 200 ∧
    (findUnique store3 "d1").map MembershipApplication.submittedAt =
      some (some 5) :=
  ⟨rfl, rfl, rfl⟩

/-- C4 amended: every successful submit stamps submittedAt with the current
time — overwriting any earlier value on a resubmit after
REQUESTED_CHANGES — and no other transition touches it: the transition
helper's update preserves submittedAt for every action. -/
theorem C4_submittedAt_overwritten (app : MembershipApplication)
    (action : Transition) (data : Payload) (now : Nat) :
    (submitUpdate app now).submittedAt = some now ∧
    (transitionUpdate app action data now).submittedAt = app.submittedAt ∧
    (∀ fm user store appId s2 ua,
      submitRoute fm user store appId now = (s2, ⟨200, some ua⟩) →
      ua.submittedAt = some now) := by
  refine ⟨rfl, rfl, ?_⟩
  intro fm user store appId s2 ua heq
  unfold submitRoute at heq
  by_cases hrole : requireRole [.COMPANY_REP, .ADMIN] user = true
  · rw [if_pos hrole] at heq
    cases hfind : findUnique store appId with
    | none => rw [hfind] at heq; simp at heq
    | some app2 =>
      rw [hfind] at heq
      dsimp only at heq
      by_cases hc : can app2.state .submit
      · rw [if_pos hc] at heq
        by_cases hf : (fm.updateFails || fm.createFails) = true
        · rw [if_pos hf] at heq; simp at heq
        · rw [if_neg hf] at heq
          simp only [Prod.mk.injEq, HttpResult.mk.injEq, Option.some.injEq] at heq
          rw [← heq.2.2]
          rfl
      · rw [if_neg hc] at heq; simp at heq
  · rw [if_neg hrole] at heq; simp at heq

/-- Witness for C4 amended at the first submit of the draft store. -/
theorem C4_submittedAt_overwritten_witness :
    (submitUpdate draftApp 1).submittedAt = some 1 :=
  (C4_submittedAt_overwritten draftApp .submit ⟨none, none⟩ 1).2.2 noFault repUser
    store0 "d1" store1 (submitUpdate draftApp 1) (by rfl)

/-- Invariant of every application row producible by the engine, proved by
induction over `Reachable`: `decidedAt` is set iff the state is terminal,
`reasonRejected` is set iff the state is REJECTED, and the state is never
REGION_REVIEW. -/
theorem reachable_invariant (app : MembershipApplication) (h : Reachable app) :
    ((app.decidedAt ≠ none) ↔
      (app.state = AppState.APPROVED ∨ app.state = AppState.REJECTED)) ∧
    ((app.reasonRejected ≠ none) ↔ app.state = AppState.REJECTED) ∧
    app.state ≠ AppState.REGION_REVIEW := by
  induction h with
  | created appId companyId userId regionId form =>
    refine ⟨?_, ?_, ?_⟩ <;> simp [createApp]
  | submitted app now hr hcan ih =>
    have hterm := can_not_terminal app.state .submit hcan
    have hdec : app.decidedAt = none := by
      rcases hdn : app.decidedAt with _ | v
      · rfl
      · exact absurd (ih.1.mp (by simp [hdn])) hterm
    have hrej : app.reasonRejected = none := by
      rcases hrn : app.reasonRejected with _ | v
      · rfl
      · exact absurd (Or.inr (ih.2.1.mp (by simp [hrn]))) hterm
    refine ⟨?_, ?_, ?_⟩ <;> simp [submitUpdate, hdec, hrej]
  | stepped app action data now hr hns hcan ih =>
    have hterm := can_not_terminal app.state action hcan
    have hdec : app.decidedAt = none := by
      rcases hdn : app.decidedAt with _ | v
      · rfl
      · exact absurd (ih.1.mp (by simp [hdn])) hterm
    have hrej : app.reasonRejected = none := by
      rcases hrn : app.reasonRejected with _ | v
      · rfl
      · exact absurd (Or.inr (ih.2.1.mp (by simp [hrn]))) hterm
    cases action with
    | submit => exact absurd rfl hns
    | request_info =>
      refine ⟨?_, ?_, ?_⟩ <;>
        simp [transitionUpdate_decidedAt, transitionUpdate_reason,
          transitionUpdate_state, nextState, hdec, hrej]
    | region_approve =>
      refine ⟨?_, ?_, ?_⟩ <;>
        simp [transitionUpdate_decidedAt, transitionUpdate_reason,
          transitionUpdate_state, nextState, hdec, hrej]
    | national_approve =>
      refine ⟨?_, ?_, ?_⟩ <;>
        simp [transitionUpdate_decidedAt, transitionUpdate_reason,
          transitionUpdate_state, nextState, hdec, hrej]
    | reject =>
      refine ⟨?_, ?_, ?_⟩ <;>
        simp [transitionUpdate_decidedAt, transitionUpdate_reason,
          transitionUpdate_state, nextState, hdec, hrej]

/-- Fixture: the draft application after its first submit at time 1. -/
def subApp : MembershipApplication := submitUpdate draftApp 1

/-- Fixture: the submitted application after a reject at time 2. -/
def rejApp : MembershipApplication :=
  transitionUpdate subApp .reject ⟨some "docs missing", none⟩ 2

/-- Fixture: a store holding only the rejected application. -/
def storeRej : Store := ⟨[rejApp], [], []⟩

/-- The rejected fixture is producible by the engine. -/
theorem rejApp_reachable : Reachable rejApp :=
  Reachable.stepped subApp .reject ⟨some "docs missing", none⟩ 2
    (Reachable.submitted draftApp 1
      (Reachable.created "d1" "c1" "bob" "r1" "formdata") rfl)
    (by decide) rfl

/-- C5: for every application the engine can produce, decidedAt is set iff
the state is APPROVED or REJECTED, and once it is set no transition attempt
ever changes anything: every call of the transition helper on that
application fails with InvalidTransition and returns the store unchanged. -/
theorem C5_decidedAt_once (app : MembershipApplication) (h : Reachable app) :
    ((app.decidedAt ≠ none) ↔
      (app.state = AppState.APPROVED ∨ app.state = AppState.REJECTED)) ∧
    (app.decidedAt ≠ none →
      ∀ fm store appId actorId action data now,
        findUnique store appId = some app →
        transition fm store appId actorId action data now =
          (store, .error .invalidTransition)) := by
  refine ⟨(reachable_invariant app h).1, ?_⟩
  intro hset fm store appId actorId action data now hfind
  have hterm : app.state = AppState.APPROVED ∨ app.state = AppState.REJECTED :=
    (reachable_invariant app h).1.mp hset
  have hcan : can app.state action = false := terminal_no_action _ _ hterm
  rw [transition_eq, hfind]
  dsimp only
  rw [if_neg (by simp [hcan])]

/-- Witness for C5: a submit attempt on the concrete rejected application
fails with InvalidTransition and leaves the store unchanged. -/
theorem C5_decidedAt_once_witness :
    transition noFault storeRej "d1" "reg2" .submit ⟨none, none⟩ 9 =
      (storeRej, .error .invalidTransition) :=
  (C5_decidedAt_once rejApp rejApp_reachable).2 (by decide) noFault storeRej
    "d1" "reg2" .submit ⟨none, none⟩ 9 (by rfl)

/-- C6 counterexample: rejecting the submitted draft with an empty-string
reason succeeds, leaving a REJECTED application whose reasonRejected is the
empty string — so the rejection reason is not non-empty in state REJECTED. -/
theorem C6_counterexample :
    (rejectRoute noFault natUser store1 "d1" (some "") 3).2.status = 200 ∧
    (findUnique (rejectRoute noFault natUser store1 "d1" (some "") 3).1
        "d1").map (fun a => (a.state, a.reasonRejected)) =
      some (AppState.REJECTED, some "") ∧
    "".isEmpty = true :=
  ⟨rfl, rfl, rfl⟩

/-- C6 amended: for every application the engine can produce, reasonRejected
is non-null iff the state is REJECTED (it may be the empty string when the
payload supplies one); a reject sets it to the payload value, defaulting to
"Not specified" when the payload omits it; every other update keeps it. -/
theorem C6_reasonRejected_nonnull (app : MembershipApplication)
    (h : Reachable app) (action : Transition) (data : Payload) (now : Nat) :
    ((app.reasonRejected ≠ none) ↔ app.state = AppState.REJECTED) ∧
    ((transitionUpdate app .reject data now).reasonRejected =
      some (data.reasonRejected.getD "Not specified")) ∧
    (action ≠ .reject →
      (transitionUpdate app action data now).reasonRejected =
        app.reasonRejected) ∧
    ((submitUpdate app now).reasonRejected = app.reasonRejected) := by
  refine ⟨(reachable_invariant app h).2.1, rfl, ?_, rfl⟩
  intro hne
  rw [transitionUpdate_reason, if_neg hne]

/-- Witness for C6 amended at the concrete rejected application. -/
theorem C6_reasonRejected_nonnull_witness :
    ((rejApp.reasonRejected ≠ none) ↔ rejApp.state = AppState.REJECTED) ∧
    (transitionUpdate rejApp .request_info ⟨none, none⟩ 4).reasonRejected =
      rejApp.reasonRejected :=
  have h := C6_reasonRejected_nonnull rejApp rejApp_reachable .request_info
    ⟨none, none⟩ 4
  ⟨h.1, h.2.2.1 (by decide)⟩

/-- The submit handler never reads the companies table: swapping it changes
nothing but the carried companies field of the resulting store. -/
theorem submitRoute_ignores_companies (fm : FaultModel)
    (user : AuthenticatedUser) (store : Store) (appId : String) (now : Nat)
    (cs : List Company) :
    submitRoute fm user ⟨store.apps, store.events, cs⟩ appId now =
      (⟨(submitRoute fm user store appId now).1.apps,
        (submitRoute fm user store appId now).1.events, cs⟩,
       (submitRoute fm user store appId now).2) := by
  unfold submitRoute
  have hfu : findUnique ⟨store.apps, store.events, cs⟩ appId =
      findUnique store appId := rfl
  by_cases hrole : requireRole [.COMPANY_REP, .ADMIN] user = true
  · rw [if_pos hrole, if_pos hrole, hfu]
    cases hfind : findUnique store appId with
    | none => rfl
    | some app =>
      dsimp only
      by_cases hc : can app.state .submit
      · rw [if_pos hc, if_pos hc]
        by_cases hf : (fm.updateFails || fm.createFails) = true
        · rw [if_pos hf, if_pos hf]
        · rw [if_neg hf, if_neg hf]
          rfl
      · rw [if_neg hc, if_neg hc]
  · rw [if_neg hrole, if_neg hrole]

/-- C7 counterexample: bob is a company representative who does not own
company c1 (owned by alice), yet his submit of the draft succeeds with
200 — ownership is not checked. -/
theorem C7_counterexample :
    repUser.role = Role.COMPANY_REP ∧
    (store0.companies.find? (fun c => c.id == draftApp.companyId)).map
      Company.ownerUserId = some "alice" ∧
    repUser.id = "bob" ∧
    ("bob" : String) ≠ "alice" ∧
    (submitRoute noFault repUser store0 "d1" 1).2.status = 200 :=
  ⟨rfl, rfl, rfl, by decide, rfl⟩

/-- C7 amended: the submit endpoint gates on role only — COMPANY_REP or
ADMIN — and never checks ownership of the underlying company: the response
does not depend on the companies table, and 403 arises exactly when the
role check fails. -/
theorem C7_submit_role_only (fm : FaultModel) (user : AuthenticatedUser)
    (store : Store) (appId : String) (now : Nat) (cs : List Company) :
    ((submitRoute fm user store appId now).2.status = 403 ↔
      requireRole [.COMPANY_REP, .ADMIN] user = false) ∧
    ((submitRoute fm user ⟨store.apps, store.events, cs⟩ appId now).2 =
      (submitRoute fm user store appId now).2) := by
  constructor
  · by_cases hrole : requireRole [.COMPANY_REP, .ADMIN] user = true
    · rw [hrole]
      simp only [Bool.true_eq_false, iff_false]
      unfold submitRoute
      rw [if_pos hrole]
      cases hfind : findUnique store appId with
      | none => simp
      | some app =>
        dsimp only
        by_cases hc : can app.state .submit
        · rw [if_pos hc]
          by_cases hf : (fm.updateFails || fm.createFails) = true
          · rw [if_pos hf]; simp
          · rw [if_neg hf]; simp
        · rw [if_neg hc]; simp
    · unfold submitRoute
      rw [if_neg hrole]
      simp only [Bool.not_eq_true] at hrole
      rw [hrole]
      simp
  · rw [submitRoute_ignores_companies]

/-- Fixture: an administrator. -/
def adminUser : AuthenticatedUser := ⟨"adm", .ADMIN, none⟩

/-- C8 counterexample: for a missing application id, the request-info
endpoint responds 409, not 404. -/
theorem C8_counterexample :
    findUnique store0 "zz" = none ∧
    (requestInfoRoute noFault natUser store0 "zz" none 1).2.status = 409 ∧
    ¬ (requestInfoRoute noFault natUser store0 "zz" none 1).2.status = 404 :=
  ⟨rfl, rfl, by decide⟩

/-- C8 amended: on a missing application id the submit endpoint responds
404, but request-info, region-approve, national-approve and reject catch
the NotFound error in the same handler as every other transition error and
respond 409. -/
theorem C8_missing_id_status (fm : FaultModel) (user : AuthenticatedUser)
    (store : Store) (appId : String) (note reason : Option String) (now : Nat)
    (h : findUnique store appId = none) :
    (requireRole [.COMPANY_REP, .ADMIN] user = true →
      (submitRoute fm user store appId now).2.status = 404) ∧
    (requireRole [.REGIONAL_SECRETARIAT, .NATIONAL_SECRETARIAT, .ADMIN] user =
        true →
      (requestInfoRoute fm user store appId note now).2.status = 409 ∧
      (rejectRoute fm user store appId reason now).2.status = 409) ∧
    (requireRole [.REGIONAL_SECRETARIAT, .ADMIN] user = true →
      (regionApproveRoute fm user store appId now).2.status = 409) ∧
    (requireRole [.NATIONAL_SECRETARIAT, .ADMIN] user = true →
      (nationalApproveRoute fm user store appId now).2.status = 409) := by
  refine ⟨?_, ?_, ?_, ?_⟩
  · intro hrole
    unfold submitRoute
    rw [if_pos hrole, h]
  · intro hrole
    constructor
    · unfold requestInfoRoute
      rw [if_pos hrole, transition_eq, h]
      rfl
    · unfold rejectRoute
      rw [if_pos hrole, transition_eq, h]
      rfl
  · intro hrole
    unfold regionApproveRoute
    rw [if_pos hrole, transition_eq, h]
    rfl
  · intro hrole
    unfold nationalApproveRoute
    rw [if_pos hrole, transition_eq, h]
    rfl

/-- Witness for C8 at a concrete missing id: the admin sees 404 from submit
and 409 from request-info. -/
theorem C8_missing_id_status_witness :
    (submitRoute noFault adminUser store0 "zz" 1).2.status = 404 ∧
    (requestInfoRoute noFault adminUser store0 "zz" none 1).2.status = 409 :=
  have h := C8_missing_id_status noFault adminUser store0 "zz" none none 1
    (by rfl)
  ⟨h.1 (by rfl), (h.2.1 (by rfl)).1⟩

/-- C10: creation yields DRAFT, the next-state mapping never yields DRAFT
or REGION_REVIEW, no application the engine can produce is ever in
REGION_REVIEW, and neither update function can return an application to
DRAFT. -/
theorem C10_no_region_review_no_redraft (app : MembershipApplication)
    (h : Reachable app) (action : Transition) (data : Payload) (now : Nat)
    (appId companyId userId regionId form : String) :
    (createApp appId companyId userId regionId form).state = AppState.DRAFT ∧
    (nextState action ≠ AppState.DRAFT ∧
      nextState action ≠ AppState.REGION_REVIEW) ∧
    app.state ≠ AppState.REGION_REVIEW ∧
    (submitUpdate app now).state ≠ AppState.DRAFT ∧
    (transitionUpdate app action data now).state ≠ AppState.DRAFT := by
  refine ⟨rfl, ?_, (reachable_invariant app h).2.2, ?_, ?_⟩
  · cases action <;> exact ⟨by decide, by decide⟩
  · intro hcontra
    simp [submitUpdate] at hcontra
  · rw [transitionUpdate_state]
    cases action <;> decide

/-- Witness for C10 at the concrete rejected application. -/
theorem C10_no_region_review_no_redraft_witness :
    rejApp.state ≠ AppState.REGION_REVIEW :=
  (C10_no_region_review_no_redraft rejApp rejApp_reachable .submit
    ⟨none, none⟩ 0 "a" "b" "c" "d" "e").2.2.1

end NexusDev
